import Mathlib

/-!
Verification development for the Windows toast notification coordinator
(ToastNotification.cpp).  The coordinator keeps a name-keyed registry of
live notification handlers, replaces and removes them, drains them on
shutdown, and supports suppression and render-only markup generation.

Shallow embedding choices:
* nsresult values are natural numbers; failure means the high bit is set
  (NS_FAILED is a test against 0x80000000), matching the XPCOM convention.
* A handler is identified by the natural number allocated when it is
  constructed (object identity, as compared by RefPtr equality in
  IsActiveHandler).
* The hashtable mActiveHandlers is an association list from alert name to
  handler id; InsertOrUpdate, Remove and Get are modelled directly.
* Externally observable side effects (handler construction, registry
  insertion and removal, UnregisterHandler calls) are appended in program
  order to a trace, so ordering claims can be stated.
* External collaborators (the alert field getters, InitAlertAsync,
  CreateToastXmlString, OS probes at Init) are oracles passed as
  parameters: their result values are inputs to the model.
-/

namespace Toast

/-- Success code NS_OK. -/
def NS_OK : Nat := 0

/-- NS_ERROR_NOT_IMPLEMENTED (0x80004001), returned by Init on an
unsupported platform or missing application identity. -/
def NS_ERROR_NOT_IMPLEMENTED : Nat := 0x80004001

/-- NS_ERROR_INVALID_ARG (0x80070057), produced by NS_ENSURE_ARG on a
null alert argument. -/
def NS_ERROR_INVALID_ARG : Nat := 0x80070057

/-- NS_FAILED: an nsresult is a failure iff its high bit is set. -/
def NS_FAILED (rv : Nat) : Bool := decide (0x80000000 ≤ rv)

/-- The alert source object (nsIAlertNotification) seen through its
getters.  Each getter yields an nsresult together with the out-param
value it would write; MOZ_TRY propagates the nsresult when it fails. -/
structure AlertSource where
  cookie : Nat × String
  name : Nat × String
  title : Nat × String
  text : Nat × String
  textClickable : Nat × Bool
  source : Nat × String
  requireInteraction : Nat × Bool
  actions : Nat × List Nat
  imageURL : Nat × String
deriving Repr, DecidableEq

/-- The field values ShowAlert and GetXmlStringForWindowsAlert copy out of
the alert source before constructing a handler. -/
structure AlertFields where
  cookie : String
  name : String
  title : String
  text : String
  textClickable : Bool
  hostPort : String
  requireInteraction : Bool
  actions : List Nat
deriving Repr, DecidableEq

/-- The MOZ_TRY chain of field getters in ShowAlert and
GetXmlStringForWindowsAlert, in source order: cookie, name, title, text,
textClickable, source, requireInteraction, actions.  The first failing
getter aborts with its own nsresult. -/
def extractFields (a : AlertSource) : Except Nat AlertFields :=
  if NS_FAILED a.cookie.1 then .error a.cookie.1
  else if NS_FAILED a.name.1 then .error a.name.1
  else if NS_FAILED a.title.1 then .error a.title.1
  else if NS_FAILED a.text.1 then .error a.text.1
  else if NS_FAILED a.textClickable.1 then .error a.textClickable.1
  else if NS_FAILED a.source.1 then .error a.source.1
  else if NS_FAILED a.requireInteraction.1 then .error a.requireInteraction.1
  else if NS_FAILED a.actions.1 then .error a.actions.1
  else .ok ⟨a.cookie.2, a.name.2, a.title.2, a.text.2, a.textClickable.2,
            a.source.2, a.requireInteraction.2, a.actions.2⟩

/-- The nsresults of the failing getters among the eight read by
extractFields, in getter order (used to state the fail-fast claim). -/
def failedGetters (a : AlertSource) : List Nat :=
  (if NS_FAILED a.cookie.1 then [a.cookie.1] else []) ++
  (if NS_FAILED a.name.1 then [a.name.1] else []) ++
  (if NS_FAILED a.title.1 then [a.title.1] else []) ++
  (if NS_FAILED a.text.1 then [a.text.1] else []) ++
  (if NS_FAILED a.textClickable.1 then [a.textClickable.1] else []) ++
  (if NS_FAILED a.source.1 then [a.source.1] else []) ++
  (if NS_FAILED a.requireInteraction.1 then [a.requireInteraction.1] else []) ++
  (if NS_FAILED a.actions.1 then [a.actions.1] else [])

/-- Observable side effects of the coordinator, recorded in program
order: handler construction (with its listener, possibly null),
hashtable insertion and removal, and UnregisterHandler calls. -/
inductive Event
  | construct (id : Nat) (listener : Option Nat)
  | insert (name : String) (id : Nat)
  | removeEntry (name : String)
  | unregister (id : Nat)
deriving Repr, DecidableEq

/-- State of the ToastNotification service: the mActiveHandlers table
(name to handler id), the mSuppressForScreenSharing flag, the next fresh
handler identity, and the trace of observable effects so far. -/
structure Coord where
  registry : List (String × Nat)
  suppress : Bool
  nextId : Nat
  trace : List Event
deriving Repr, DecidableEq

/-- Hashtable Get: the value stored under a key, if any. -/
def regGet : List (String × Nat) → String → Option Nat
  | [], _ => none
  | (k, v) :: rest, n => if k = n then some v else regGet rest n

/-- Hashtable InsertOrUpdate: replace the entry under the key if present,
otherwise add a new entry. -/
def regInsertOrUpdate : List (String × Nat) → String → Nat → List (String × Nat)
  | [], n, h => [(n, h)]
  | (k, v) :: rest, n, h =>
    if k = n then (n, h) :: rest else (k, v) :: regInsertOrUpdate rest n h

/-- Hashtable Remove: drop the entry (entries) stored under a key. -/
def regRemove : List (String × Nat) → String → List (String × Nat)
  | [], _ => []
  | (k, v) :: rest, n =>
    if k = n then regRemove rest n else (k, v) :: regRemove rest n

/-- Number of entries a table holds for a given name. -/
def countKey : List (String × Nat) → String → Nat
  | [], _ => 0
  | (k, _) :: rest, n => (if k = n then 1 else 0) + countKey rest n

/-- The keys of the table are pairwise distinct: the hashtable
invariant. -/
def keysNodup (reg : List (String × Nat)) : Prop :=
  (reg.map Prod.fst).Nodup

instance (reg : List (String × Nat)) : Decidable (keysNodup reg) := by
  unfold keysNodup; infer_instance

/-- GetSuppressForScreenSharing: reads the suppression flag. -/
def GetSuppressForScreenSharing (st : Coord) : Nat × Bool :=
  (NS_OK, st.suppress)

/-- SetSuppressForScreenSharing: writes the suppression flag. -/
def SetSuppressForScreenSharing (st : Coord) (b : Bool) : Nat × Coord :=
  (NS_OK, { st with suppress := b })

/-- ToastNotification::ShowAlert.  The argument alert is none for a null
pointer (rejected by NS_ENSURE_ARG); initRv is the nsresult of the
external InitAlertAsync submission for the newly built handler. -/
def ShowAlert (st : Coord) (alert : Option AlertSource) (listener : Option Nat)
    (initRv : Nat) : Nat × Coord :=
  match alert with
  | none => (NS_ERROR_INVALID_ARG, st)
  | some a =>
    if st.suppress then (NS_OK, st)
    else
      match extractFields a with
      | .error rv => (rv, st)
      | .ok f =>
        let oldHandler := regGet st.registry f.name
        let hid := st.nextId
        let st1 : Coord :=
          { st with nextId := st.nextId + 1,
                    trace := st.trace ++ [.construct hid listener] }
        let st2 : Coord :=
          { st1 with registry := regInsertOrUpdate st1.registry f.name hid,
                     trace := st1.trace ++ [.insert f.name hid] }
        if NS_FAILED initRv then
          let st3 : Coord :=
            { st2 with registry := regRemove st2.registry f.name,
                       trace := st2.trace ++ [.removeEntry f.name] }
          (initRv, { st3 with trace := st3.trace ++ [.unregister hid] })
        else
          match oldHandler with
          | some oldId =>
            (NS_OK, { st2 with trace := st2.trace ++ [.unregister oldId] })
          | none => (NS_OK, st2)

/-- ToastNotification::GetXmlStringForWindowsAlert.  Builds a transient
handler (null listener) and asks it for the toast XML; render is the
external CreateToastXmlString, fed the handler identity and the image
URL.  Returns the nsresult, the produced string when it succeeded, and
the resulting state. -/
def GetXmlStringForWindowsAlert (st : Coord) (alert : Option AlertSource)
    (render : Nat → String → Nat × String) : Nat × Option String × Coord :=
  match alert with
  | none => (NS_ERROR_INVALID_ARG, none, st)
  | some a =>
    match extractFields a with
    | .error rv => (rv, none, st)
    | .ok _f =>
      let hid := st.nextId
      let st1 : Coord :=
        { st with nextId := st.nextId + 1,
                  trace := st.trace ++ [.construct hid none] }
      if NS_FAILED a.imageURL.1 then (a.imageURL.1, none, st1)
      else
        let r := render hid a.imageURL.2
        (r.1, if NS_FAILED r.1 then none else some r.2, st1)

/-- ToastNotification::CloseAlert: a miss succeeds as a no-op; a hit is
removed from the table first, then unregistered. -/
def CloseAlert (st : Coord) (name : String) : Nat × Coord :=
  match regGet st.registry name with
  | none => (NS_OK, st)
  | some hid =>
    let st1 : Coord :=
      { st with registry := regRemove st.registry name,
                trace := st.trace ++ [.removeEntry name] }
    (NS_OK, { st1 with trace := st1.trace ++ [.unregister hid] })

/-- ToastNotification::IsActiveHandler: the table holds exactly this
handler (pointer identity) under this name. -/
def IsActiveHandler (st : Coord) (name : String) (h : Nat) : Bool :=
  match regGet st.registry name with
  | none => false
  | some cur => decide (cur = h)

/-- ToastNotification::RemoveHandler: remove and unregister the handler
only when it is still the active one for the name. -/
def RemoveHandler (st : Coord) (name : String) (h : Nat) : Coord :=
  if IsActiveHandler st name h then
    let st1 : Coord :=
      { st with registry := regRemove st.registry name,
                trace := st.trace ++ [.removeEntry name] }
    { st1 with trace := st1.trace ++ [.unregister h] }
  else st

/-- The per-entry effects of the quit-application drain, in iteration
order: each entry is removed from the table, then its handler is
unregistered. -/
def drain : List (String × Nat) → List Event
  | [] => []
  | (n, h) :: rest => .removeEntry n :: .unregister h :: drain rest

/-- ToastNotification::Observe on quit-application: iterate over the
whole table, removing every entry and unregistering its handler. -/
def Observe (st : Coord) : Nat × Coord :=
  (NS_OK, { st with registry := [], trace := st.trace ++ drain st.registry })

/-- ToastNotification::Init, as a function of its external probes:
whether the OS is Windows 8 or later, whether GetAppUserModelID
succeeds, whether the XPCSHELL_TEST_PROFILE_DIR environment variable is
set, the nsresult of creating the background thread, and whether the
observer service is available.  Returns the nsresult together with
whether the background thread was created and whether the
quit-application observer was registered. -/
def Init (isWin8OrLater appUserModelIDOk xpcshellEnv : Bool)
    (newThreadRv : Nat) (obsServAvailable : Bool) : Nat × Bool × Bool :=
  if !isWin8OrLater then (NS_ERROR_NOT_IMPLEMENTED, false, false)
  else if !appUserModelIDOk && !xpcshellEnv then
    (NS_ERROR_NOT_IMPLEMENTED, false, false)
  else if NS_FAILED newThreadRv then (newThreadRv, false, false)
  else (NS_OK, true, obsServAvailable)

/-! ### Registry lemmas -/

theorem regGet_regRemove_self (reg : List (String × Nat)) (n : String) :
    regGet (regRemove reg n) n = none := by
  induction reg with
  | nil => rfl
  | cons p rest ih =>
    obtain ⟨k, v⟩ := p
    by_cases h : k = n
    · simpa [regRemove, h] using ih
    · simpa [regRemove, regGet, h] using ih

theorem regGet_regInsertOrUpdate_self (reg : List (String × Nat))
    (n : String) (h : Nat) :
    regGet (regInsertOrUpdate reg n h) n = some h := by
  induction reg with
  | nil => simp [regInsertOrUpdate, regGet]
  | cons p rest ih =>
    obtain ⟨k, v⟩ := p
    by_cases hk : k = n
    · simp [regInsertOrUpdate, regGet, hk]
    · simpa [regInsertOrUpdate, regGet, hk] using ih

theorem countKey_eq_zero_of_not_mem (reg : List (String × Nat)) (n : String)
    (h : n ∉ reg.map Prod.fst) : countKey reg n = 0 := by
  induction reg with
  | nil => rfl
  | cons p rest ih =>
    obtain ⟨k, v⟩ := p
    simp only [List.map_cons, List.mem_cons] at h
    push_neg at h
    have hk : k ≠ n := fun hkn => h.1 hkn.symm
    simpa [countKey, hk] using ih h.2

theorem countKey_regInsertOrUpdate (reg : List (String × Nat))
    (n : String) (h : Nat) (hnd : keysNodup reg) :
    countKey (regInsertOrUpdate reg n h) n = 1 := by
  induction reg with
  | nil => simp [regInsertOrUpdate, countKey]
  | cons p rest ih =>
    obtain ⟨k, v⟩ := p
    unfold keysNodup at hnd
    simp only [List.map_cons, List.nodup_cons] at hnd
    by_cases hk : k = n
    · have : n ∉ rest.map Prod.fst := by
        subst hk; exact hnd.1
      simp [regInsertOrUpdate, countKey, hk,
        countKey_eq_zero_of_not_mem rest n this]
    · have := ih hnd.2
      simpa [regInsertOrUpdate, countKey, hk] using this

theorem drain_count_unregister_of_not_mem (reg : List (String × Nat))
    (h : Nat) (hm : h ∉ reg.map Prod.snd) :
    (drain reg).count (Event.unregister h) = 0 := by
  induction reg with
  | nil => rfl
  | cons p rest ih =>
    obtain ⟨n, v⟩ := p
    simp only [List.map_cons, List.mem_cons] at hm
    push_neg at hm
    have hv : Event.unregister h ≠ Event.unregister v := by
      simpa using hm.1
    simp [drain, List.count_cons, hv, ih hm.2]

theorem drain_count_unregister_mem (reg : List (String × Nat))
    (p : String × Nat) (hp : p ∈ reg) (hnd : (reg.map Prod.snd).Nodup) :
    (drain reg).count (Event.unregister p.2) = 1 := by
  induction reg with
  | nil => cases hp
  | cons q rest ih =>
    obtain ⟨n, v⟩ := q
    simp only [List.map_cons, List.nodup_cons] at hnd
    rcases List.mem_cons.mp hp with he | hm
    · subst he
      simp [drain, List.count_cons,
        drain_count_unregister_of_not_mem rest v hnd.1]
    · have hv : p.2 ≠ v := by
        intro hpv
        exact hnd.1 (hpv ▸ List.mem_map_of_mem Prod.snd hm)
      have : Event.unregister p.2 ≠ Event.unregister v := by
        simpa using hv
      simp [drain, List.count_cons, this, ih hm hnd.2]

/-! ### Claim theorems -/

/-- Claim C1: when ShowAlert succeeds for a name already mapped to an old
handler, the new handler is inserted under the name (overwriting the old
entry) before the old handler is unregistered — the trace is exactly
construct-new, insert-new, unregister-old — and afterwards the registry
holds exactly one handler for the name, namely the new one. -/
theorem showAlert_replaces_old (st : Coord) (a : AlertSource)
    (listener : Option Nat) (initRv : Nat) (f : AlertFields) (oldId : Nat)
    (hsup : st.suppress = false)
    (hf : extractFields a = Except.ok f)
    (hinit : NS_FAILED initRv = false)
    (hold : regGet st.registry f.name = some oldId)
    (hnd : keysNodup st.registry) :
    (ShowAlert st (some a) listener initRv).1 = NS_OK ∧
    (ShowAlert st (some a) listener initRv).2.registry
      = regInsertOrUpdate st.registry f.name st.nextId ∧
    regGet (ShowAlert st (some a) listener initRv).2.registry f.name
      = some st.nextId ∧
    countKey (ShowAlert st (some a) listener initRv).2.registry f.name = 1 ∧
    (ShowAlert st (some a) listener initRv).2.trace
      = st.trace ++ [Event.construct st.nextId listener,
                     Event.insert f.name st.nextId,
                     Event.unregister oldId] := by
  refine ⟨?_, ?_, ?_, ?_, ?_⟩
  · simp [ShowAlert, hsup, hf, hinit, hold]
  · simp [ShowAlert, hsup, hf, hinit, hold]
  · simp [ShowAlert, hsup, hf, hinit, hold, regGet_regInsertOrUpdate_self]
  · simp [ShowAlert, hsup, hf, hinit, hold,
      countKey_regInsertOrUpdate st.registry f.name st.nextId hnd]
  · simp [ShowAlert, hsup, hf, hinit, hold]

theorem showAlert_replaces_old_witness :
    let st : Coord := ⟨[("A", 0)], false, 1, []⟩
    let a : AlertSource := ⟨(0, "c"), (0, "A"), (0, "t"), (0, "x"),
      (0, true), (0, "s"), (0, false), (0, []), (0, "u")⟩
    let f : AlertFields := ⟨"c", "A", "t", "x", true, "s", false, []⟩
    (ShowAlert st (some a) none 0).1 = NS_OK ∧
    (ShowAlert st (some a) none 0).2.registry
      = regInsertOrUpdate st.registry f.name st.nextId ∧
    regGet (ShowAlert st (some a) none 0).2.registry f.name
      = some st.nextId ∧
    countKey (ShowAlert st (some a) none 0).2.registry f.name = 1 ∧
    (ShowAlert st (some a) none 0).2.trace
      = st.trace ++ [Event.construct st.nextId none,
                     Event.insert f.name st.nextId,
                     Event.unregister 0] :=
  showAlert_replaces_old _ _ none 0 _ 0 rfl rfl (by decide) rfl (by decide)

/-- Claim C2: RemoveHandler removes the entry for the name and
unregisters the handler only when the registry currently maps the name
to that very handler; when the handler has been superseded (or the name
is absent), the state is left completely unchanged. -/
theorem removeHandler_only_if_current (st : Coord) (n : String) (h : Nat) :
    (regGet st.registry n = some h →
      (RemoveHandler st n h).registry = regRemove st.registry n ∧
      (RemoveHandler st n h).trace
        = st.trace ++ [Event.removeEntry n, Event.unregister h]) ∧
    (regGet st.registry n ≠ some h → RemoveHandler st n h = st) := by
  constructor
  · intro hcur
    simp [RemoveHandler, IsActiveHandler, hcur]
  · intro hnot
    cases hreg : regGet st.registry n with
    | none => simp [RemoveHandler, IsActiveHandler, hreg]
    | some cur =>
      have : cur ≠ h := fun hch => hnot (hch ▸ hreg)
      simp [RemoveHandler, IsActiveHandler, hreg, this]

theorem removeHandler_only_if_current_witness :
    let st : Coord := ⟨[("A", 5)], false, 6, []⟩
    (regGet st.registry "A" = some 5 →
      (RemoveHandler st "A" 5).registry = regRemove st.registry "A" ∧
      (RemoveHandler st "A" 5).trace
        = st.trace ++ [Event.removeEntry "A", Event.unregister 5]) ∧
    (regGet st.registry "A" ≠ some 5 → RemoveHandler st "A" 5 = st) :=
  removeHandler_only_if_current _ "A" 5

/-- Claim C7: CloseAlert always returns NS_OK; a miss leaves the state
untouched; a hit removes the registry entry first and then unregisters
that handler; and an immediately repeated CloseAlert for the same name
is a no-op that also succeeds. -/
theorem closeAlert_idempotent (st : Coord) (n : String) :
    (CloseAlert st n).1 = NS_OK ∧
    (regGet st.registry n = none → (CloseAlert st n).2 = st) ∧
    (∀ h, regGet st.registry n = some h →
      (CloseAlert st n).2.registry = regRemove st.registry n ∧
      (CloseAlert st n).2.trace
        = st.trace ++ [Event.removeEntry n, Event.unregister h]) ∧
    (CloseAlert (CloseAlert st n).2 n).2 = (CloseAlert st n).2 ∧
    (CloseAlert (CloseAlert st n).2 n).1 = NS_OK := by
  cases hreg : regGet st.registry n with
  | none => simp [CloseAlert, hreg]
  | some hid => simp [CloseAlert, hreg, regGet_regRemove_self]

theorem closeAlert_idempotent_witness :
    let st : Coord := ⟨[("A", 3)], false, 4, []⟩
    (CloseAlert st "A").1 = NS_OK ∧
    (regGet st.registry "A" = none → (CloseAlert st "A").2 = st) ∧
    (∀ h, regGet st.registry "A" = some h →
      (CloseAlert st "A").2.registry = regRemove st.registry "A" ∧
      (CloseAlert st "A").2.trace
        = st.trace ++ [Event.removeEntry "A", Event.unregister h]) ∧
    (CloseAlert (CloseAlert st "A").2 "A").2 = (CloseAlert st "A").2 ∧
    (CloseAlert (CloseAlert st "A").2 "A").1 = NS_OK :=
  closeAlert_idempotent _ "A"

/-- Claim C3: the quit-application Observe drains the registry: it
returns NS_OK, the registry ends empty, the appended effects are exactly
the per-entry remove-then-unregister drain, every handler present at the
start is unregistered exactly once by that drain, and on an already
empty registry the whole operation is a state-preserving no-op. -/
theorem observe_drains_registry (st : Coord)
    (hnd : (st.registry.map Prod.snd).Nodup) :
    (Observe st).1 = NS_OK ∧
    (Observe st).2.registry = [] ∧
    (Observe st).2.trace = st.trace ++ drain st.registry ∧
    (∀ p ∈ st.registry,
      (drain st.registry).count (Event.unregister p.2) = 1) ∧
    (st.registry = [] → (Observe st).2 = st) := by
  refine ⟨rfl, rfl, rfl,
    fun p hp => drain_count_unregister_mem _ p hp hnd, fun he => ?_⟩
  cases st
  simp_all [Observe, drain]

theorem observe_drains_registry_witness :
    let st : Coord := ⟨[("A", 1), ("B", 2)], false, 3, []⟩
    (Observe st).1 = NS_OK ∧
    (Observe st).2.registry = [] ∧
    (Observe st).2.trace = st.trace ++ drain st.registry ∧
    (∀ p ∈ st.registry,
      (drain st.registry).count (Event.unregister p.2) = 1) ∧
    (st.registry = [] → (Observe st).2 = st) :=
  observe_drains_registry _ (by decide)

/-- Claim C4: when the async init submission for the new handler fails,
the just-inserted entry — still the current entry for the name at that
point, as witnessed by the regGet conjunct — is removed, the new handler
is unregistered, and the failing nsresult is returned to the caller. -/
theorem showAlert_initFailure_rollback (st : Coord) (a : AlertSource)
    (listener : Option Nat) (initRv : Nat) (f : AlertFields)
    (hsup : st.suppress = false)
    (hf : extractFields a = Except.ok f)
    (hinit : NS_FAILED initRv = true) :
    (ShowAlert st (some a) listener initRv).1 = initRv ∧
    regGet (regInsertOrUpdate st.registry f.name st.nextId) f.name
      = some st.nextId ∧
    (ShowAlert st (some a) listener initRv).2.registry
      = regRemove (regInsertOrUpdate st.registry f.name st.nextId) f.name ∧
    (ShowAlert st (some a) listener initRv).2.trace
      = st.trace ++ [Event.construct st.nextId listener,
                     Event.insert f.name st.nextId,
                     Event.removeEntry f.name,
                     Event.unregister st.nextId] := by
  refine ⟨?_, regGet_regInsertOrUpdate_self _ _ _, ?_, ?_⟩ <;>
    simp [ShowAlert, hsup, hf, hinit]

theorem showAlert_initFailure_rollback_witness :
    let st : Coord := ⟨[], false, 0, []⟩
    let a : AlertSource := ⟨(0, "c"), (0, "A"), (0, "t"), (0, "x"),
      (0, true), (0, "s"), (0, false), (0, []), (0, "u")⟩
    let f : AlertFields := ⟨"c", "A", "t", "x", true, "s", false, []⟩
    (ShowAlert st (some a) none 0x80004005).1 = 0x80004005 ∧
    regGet (regInsertOrUpdate st.registry f.name st.nextId) f.name
      = some st.nextId ∧
    (ShowAlert st (some a) none 0x80004005).2.registry
      = regRemove (regInsertOrUpdate st.registry f.name st.nextId) f.name ∧
    (ShowAlert st (some a) none 0x80004005).2.trace
      = st.trace ++ [Event.construct st.nextId none,
                     Event.insert f.name st.nextId,
                     Event.removeEntry f.name,
                     Event.unregister st.nextId] :=
  showAlert_initFailure_rollback _ _ none 0x80004005 _ rfl rfl (by decide)

/-- Claim C6: with the suppression flag set, ShowAlert returns NS_OK and
leaves the whole state untouched (no registry entry inserted, no handler
constructed, nothing unregistered); setting the flag with the setter
behaves the same way, and clearing it restores the normal, unsuppressed
behavior of ShowAlert. -/
theorem showAlert_suppressed_noop (st st2 : Coord) (a : AlertSource)
    (listener : Option Nat) (initRv : Nat)
    (hsup : st.suppress = true) :
    ShowAlert st (some a) listener initRv = (NS_OK, st) ∧
    ShowAlert (SetSuppressForScreenSharing st2 true).2 (some a) listener
        initRv = (NS_OK, (SetSuppressForScreenSharing st2 true).2) ∧
    ShowAlert (SetSuppressForScreenSharing st2 false).2 (some a) listener
        initRv
      = ShowAlert { st2 with suppress := false } (some a) listener initRv := by
  exact ⟨by simp [ShowAlert, hsup], by simp [ShowAlert,
    SetSuppressForScreenSharing], rfl⟩

theorem showAlert_suppressed_noop_witness :
    let st : Coord := ⟨[], true, 0, []⟩
    let st2 : Coord := ⟨[("A", 0)], false, 1, []⟩
    let a : AlertSource := ⟨(0, "c"), (0, "A"), (0, "t"), (0, "x"),
      (0, true), (0, "s"), (0, false), (0, []), (0, "u")⟩
    ShowAlert st (some a) none 0 = (NS_OK, st) ∧
    ShowAlert (SetSuppressForScreenSharing st2 true).2 (some a) none 0
      = (NS_OK, (SetSuppressForScreenSharing st2 true).2) ∧
    ShowAlert (SetSuppressForScreenSharing st2 false).2 (some a) none 0
      = ShowAlert { st2 with suppress := false } (some a) none 0 :=
  showAlert_suppressed_noop _ _ _ none 0 rfl

/-- Claim C10: when an old handler existed for the name and the init
submission for the new handler fails, the call returns the failure with
no registry entry at all left for the name — the overwritten mapping of
the old handler is not reinstated — and the old handler is never
unregistered or otherwise touched by the call. -/
theorem showAlert_initFailure_orphans_old (st : Coord) (a : AlertSource)
    (listener : Option Nat) (initRv : Nat) (f : AlertFields) (oldId : Nat)
    (hsup : st.suppress = false)
    (hf : extractFields a = Except.ok f)
    (hinit : NS_FAILED initRv = true)
    (_hold : regGet st.registry f.name = some oldId)
    (hfresh : oldId ≠ st.nextId) :
    (ShowAlert st (some a) listener initRv).1 = initRv ∧
    regGet (ShowAlert st (some a) listener initRv).2.registry f.name
      = none ∧
    (ShowAlert st (some a) listener initRv).2.trace
      = st.trace ++ [Event.construct st.nextId listener,
                     Event.insert f.name st.nextId,
                     Event.removeEntry f.name,
                     Event.unregister st.nextId] ∧
    Event.unregister oldId ∉
      [Event.construct st.nextId listener, Event.insert f.name st.nextId,
       Event.removeEntry f.name, Event.unregister st.nextId] := by
  refine ⟨?_, ?_, ?_, ?_⟩
  · simp [ShowAlert, hsup, hf, hinit]
  · simp [ShowAlert, hsup, hf, hinit, regGet_regRemove_self]
  · simp [ShowAlert, hsup, hf, hinit]
  · simp [hfresh]

theorem showAlert_initFailure_orphans_old_witness :
    let st : Coord := ⟨[("A", 0)], false, 1, []⟩
    let a : AlertSource := ⟨(0, "c"), (0, "A"), (0, "t"), (0, "x"),
      (0, true), (0, "s"), (0, false), (0, []), (0, "u")⟩
    let f : AlertFields := ⟨"c", "A", "t", "x", true, "s", false, []⟩
    (ShowAlert st (some a) none 0x80004005).1 = 0x80004005 ∧
    regGet (ShowAlert st (some a) none 0x80004005).2.registry f.name
      = none ∧
    (ShowAlert st (some a) none 0x80004005).2.trace
      = st.trace ++ [Event.construct st.nextId none,
                     Event.insert f.name st.nextId,
                     Event.removeEntry f.name,
                     Event.unregister st.nextId] ∧
    Event.unregister 0 ∉
      [Event.construct st.nextId none, Event.insert f.name st.nextId,
       Event.removeEntry f.name, Event.unregister st.nextId] :=
  showAlert_initFailure_orphans_old _ _ none 0x80004005 _ 0 rfl rfl
    (by decide) rfl (by decide)

/-- Claim C5: a null alert aborts ShowAlert and
GetXmlStringForWindowsAlert with NS_ERROR_INVALID_ARG and an unchanged
state; a single failing field getter makes the extraction chain fail
with exactly that getter's nsresult, and that failure aborts the
(unsuppressed) ShowAlert call and the GetXmlStringForWindowsAlert call
with that nsresult before any registry mutation, leaving the state —
and hence any previously live handler — untouched. -/
theorem fieldFailure_failFast (st : Coord) (a : AlertSource)
    (listener : Option Nat) (initRv rv : Nat)
    (render : Nat → String → Nat × String) :
    (ShowAlert st none listener initRv = (NS_ERROR_INVALID_ARG, st)) ∧
    (GetXmlStringForWindowsAlert st none render
       = (NS_ERROR_INVALID_ARG, none, st)) ∧
    (failedGetters a = [rv] → extractFields a = Except.error rv) ∧
    (st.suppress = false → extractFields a = Except.error rv →
       ShowAlert st (some a) listener initRv = (rv, st)) ∧
    (extractFields a = Except.error rv →
       GetXmlStringForWindowsAlert st (some a) render = (rv, none, st)) := by
  refine ⟨rfl, rfl, ?_, ?_, ?_⟩
  · intro hfg
    unfold failedGetters at hfg
    unfold extractFields
    split_ifs with h1 h2 h3 h4 h5 h6 h7 h8 <;> simp_all
  · intro hsup herr
    simp [ShowAlert, hsup, herr]
  · intro herr
    simp [GetXmlStringForWindowsAlert, herr]

theorem fieldFailure_failFast_witness :
    let st : Coord := ⟨[("A", 0)], false, 1, []⟩
    let a : AlertSource := ⟨(0, "c"), (0, "A"), (0x80004005, "t"),
      (0, "x"), (0, true), (0, "s"), (0, false), (0, []), (0, "u")⟩
    let render : Nat → String → Nat × String := fun _ _ => (0, "m")
    (ShowAlert st none none 0 = (NS_ERROR_INVALID_ARG, st)) ∧
    (GetXmlStringForWindowsAlert st none render
       = (NS_ERROR_INVALID_ARG, none, st)) ∧
    (failedGetters a = [0x80004005] →
       extractFields a = Except.error 0x80004005) ∧
    (st.suppress = false → extractFields a = Except.error 0x80004005 →
       ShowAlert st (some a) none 0 = (0x80004005, st)) ∧
    (extractFields a = Except.error 0x80004005 →
       GetXmlStringForWindowsAlert st (some a) render
         = (0x80004005, none, st)) :=
  fieldFailure_failFast _ _ none 0 0x80004005 _

/-- Claim C8 counterexample: with the OS below the Windows 8 minimum and
the xpcshell test-mode environment marker present (and every other probe
succeeding), Init still fails with NS_ERROR_NOT_IMPLEMENTED — the
escape hatch does not exempt the OS version check, contrary to the
claim. -/
theorem init_os_check_ignores_escape_hatch :
    Init false true true NS_OK true
      = (NS_ERROR_NOT_IMPLEMENTED, false, false) ∧
    NS_ERROR_NOT_IMPLEMENTED ≠ NS_OK := by
  exact ⟨rfl, by decide⟩

/-- Claim C8 (amended): Init fails with NS_ERROR_NOT_IMPLEMENTED
whenever the OS predates Windows 8, regardless of the test-mode marker;
it fails with the same code when the application identity is unavailable
and the marker is absent; otherwise it proceeds to create the background
thread, propagating a thread-creation failure and on success registering
the quit-application observer when the observer service is available. -/
theorem init_platform_and_identity_checks (appOk env obs : Bool)
    (thr : Nat) :
    (∀ (appOk2 env2 obs2 : Bool) (thr2 : Nat),
       Init false appOk2 env2 thr2 obs2
         = (NS_ERROR_NOT_IMPLEMENTED, false, false)) ∧
    (Init true false false thr obs
       = (NS_ERROR_NOT_IMPLEMENTED, false, false)) ∧
    ((appOk = true ∨ env = true) →
       Init true appOk env thr obs
         = if NS_FAILED thr then (thr, false, false)
           else (NS_OK, true, obs)) := by
  refine ⟨fun _ _ _ _ => rfl, rfl, fun hok => ?_⟩
  rcases hok with h | h
  · subst h
    cases env <;> simp [Init]
  · subst h
    cases appOk <;> simp [Init]

theorem init_platform_and_identity_checks_witness :
    ((∀ (appOk2 env2 obs2 : Bool) (thr2 : Nat),
       Init false appOk2 env2 thr2 obs2
         = (NS_ERROR_NOT_IMPLEMENTED, false, false)) ∧
    (Init true false false 0 true
       = (NS_ERROR_NOT_IMPLEMENTED, false, false)) ∧
    ((false = true ∨ true = true) →
       Init true false true 0 true
         = if NS_FAILED 0 then (0, false, false)
           else (NS_OK, true, true))) ∧
    (false = true ∨ true = true) :=
  ⟨init_platform_and_identity_checks false true true 0, Or.inr rfl⟩

/-- Claim C9: GetXmlStringForWindowsAlert leaves the registry (and the
suppression flag) exactly as it was; the only effect it can add to the
trace is the construction of one transient handler with a null listener
— it never inserts, removes, or unregisters a registry entry. -/
theorem getXml_preserves_registry (st : Coord) (alert : Option AlertSource)
    (render : Nat → String → Nat × String) :
    (GetXmlStringForWindowsAlert st alert render).2.2.registry
      = st.registry ∧
    (GetXmlStringForWindowsAlert st alert render).2.2.suppress
      = st.suppress ∧
    ((GetXmlStringForWindowsAlert st alert render).2.2.trace = st.trace ∨
     (GetXmlStringForWindowsAlert st alert render).2.2.trace
       = st.trace ++ [Event.construct st.nextId none]) := by
  cases alert with
  | none => exact ⟨rfl, rfl, Or.inl rfl⟩
  | some a =>
    cases hext : extractFields a with
    | error rv =>
      exact ⟨by simp [GetXmlStringForWindowsAlert, hext],
        by simp [GetXmlStringForWindowsAlert, hext],
        Or.inl (by simp [GetXmlStringForWindowsAlert, hext])⟩
    | ok f =>
      by_cases himg : NS_FAILED a.imageURL.1
      · exact ⟨by simp [GetXmlStringForWindowsAlert, hext, himg],
          by simp [GetXmlStringForWindowsAlert, hext, himg],
          Or.inr (by simp [GetXmlStringForWindowsAlert, hext, himg])⟩
      · exact ⟨by simp [GetXmlStringForWindowsAlert, hext, himg],
          by simp [GetXmlStringForWindowsAlert, hext, himg],
          Or.inr (by simp [GetXmlStringForWindowsAlert, hext, himg])⟩

end Toast
